import Mathlib

/-!
Verification development for the WebSocket-to-MCP bridge (`mcp_pipe.py`).

The development shallowly embeds the pieces of `mcp_pipe.py` that the
specification talks about:

* the per-line classification and routing logic of
  `pipe_process_to_websocket_and_terminal` (lines 158-192),
* the inbound pump `pipe_websocket_to_process` (lines 138-156),
* the `asyncio.gather`-based bridge of `connect_to_server` (lines 118-136),
* the retry/backoff loop `connect_with_retry` (lines 54-77) together with the
  backoff reset performed inside `connect_to_server` (lines 86-89),
* the startup checks of the `__main__` block (lines 199-216), and
* the child-termination sequence of the `finally` clause (lines 129-136).

Python strings are modelled as Lean `String`s; the handful of Python string
operations the script uses (`strip`, `lower`, `startswith`, substring
containment via `in`) are defined below over the character list of the
string.
-/

/-! ## Python string primitives used by `mcp_pipe.py` -/

/-- The ASCII whitespace characters removed by Python's `str.strip()`. -/
def isPyWhitespaceChar (c : Char) : Bool :=
  c == ' ' || c == '\t' || c == '\n' || c == '\r' || c == '\x0b' || c == '\x0c'

/-- Python `str.strip()`: remove leading and trailing whitespace. -/
def pyStrip (s : String) : String :=
  String.mk (((s.toList.dropWhile isPyWhitespaceChar).reverse.dropWhile
    isPyWhitespaceChar).reverse)

/-- Python `str.lower()` (ASCII case folding, which covers every character the
script compares against). -/
def pyLower (s : String) : String :=
  String.mk (s.toList.map Char.toLower)

/-- `strStarts n h` holds when the character list `n` is an initial segment of
`h`. -/
def strStarts : List Char → List Char → Bool
  | [], _ => true
  | _ :: _, [] => false
  | a :: as, b :: bs => a == b && strStarts as bs

/-- `strHas n h` holds when the character list `n` occurs contiguously
somewhere inside `h`. -/
def strHas (n : List Char) : List Char → Bool
  | [] => strStarts n []
  | b :: bs => strStarts n (b :: bs) || strHas n bs

/-- Python `sub in s` for strings. -/
def pyContains (s sub : String) : Bool :=
  strHas sub.toList s.toList

/-- Python `s.startswith('{')`. (The left brace is written via its code point
to keep it out of string literals.) -/
def startsWithLBrace (s : String) : Bool :=
  match s.toList with
  | [] => false
  | c :: _ => c.toNat == 123

/-- `True` when the string contains a newline character. -/
def hasNewline (s : String) : Bool :=
  s.toList.any (fun c => c == '\n')

/-! ## Line classification and routing (`pipe_process_to_websocket_and_terminal`)

Source, lines 170-188:

```
data_stripped = data.strip()
is_mcp_protocol = (data_stripped.startswith('LBRACE') and
                 ('jsonrpc' in data_stripped or 'method' in data_stripped
                  or 'result' in data_stripped))
if is_mcp_protocol:
    await websocket.send(data)
else:
    if data_stripped:
        print(data_stripped, flush=True)
    if any(keyword in data_stripped.lower()
           for keyword in ['error', 'result', 'response']):
        await websocket.send(data)
```
-/

/-- Line 173-174 of `mcp_pipe.py`: a stripped line is MCP protocol when it
starts with a left brace and contains one of `jsonrpc`, `method`, `result`. -/
def is_mcp_protocol (data_stripped : String) : Bool :=
  startsWithLBrace data_stripped &&
    (pyContains data_stripped "jsonrpc" || pyContains data_stripped "method" ||
      pyContains data_stripped "result")

/-- Line 187 of `mcp_pipe.py`: the fallback keyword check on the lowered
stripped line. -/
def hasKeyword (data_stripped : String) : Bool :=
  ["error", "result", "response"].any
    (fun keyword => pyContains (pyLower data_stripped) keyword)

/-- The observable effects of handling one line of child output: the payloads
passed to `websocket.send` and the payloads passed to `print`. -/
structure LineActions where
  sent : List String
  printed : List String
  deriving DecidableEq, Repr

/-- The body of the read loop of `pipe_process_to_websocket_and_terminal`
(lines 170-188) for a single non-empty `readline` result `data`. -/
def handleLine (data : String) : LineActions :=
  let data_stripped := pyStrip data
  if is_mcp_protocol data_stripped then
    { sent := [data], printed := [] }
  else
    { sent := if hasKeyword data_stripped then [data] else [],
      printed := if data_stripped = "" then [] else [data_stripped] }

/-- The specification's wording of the Protocol classification: after trimming
whitespace the line begins with a left brace and contains at least one of the
substrings `jsonrpc`, `method`, `result`. -/
def specProtocolLine (L : String) : Bool :=
  startsWithLBrace (pyStrip L) &&
    (pyContains (pyStrip L) "jsonrpc" || pyContains (pyStrip L) "method" ||
      pyContains (pyStrip L) "result")

theorem spec_matches_code (L : String) :
    specProtocolLine L = is_mcp_protocol (pyStrip L) := rfl

theorem hasKeyword_empty : hasKeyword "" = false := by decide

/-- Claim C1: a line takes the Protocol route (forwarded verbatim to the
WebSocket and never printed to the terminal) exactly when, after trimming
whitespace, it begins with a left brace and contains at least one of the
substrings `jsonrpc`, `method`, `result`. -/
theorem protocol_route_iff (data : String) :
    ((handleLine data).sent = [data] ∧ (handleLine data).printed = []) ↔
      specProtocolLine data = true := by
  rw [spec_matches_code]
  unfold handleLine
  by_cases h : is_mcp_protocol (pyStrip data) = true
  · simp [h]
  · rw [Bool.not_eq_true] at h
    simp only [h, Bool.false_eq_true, if_false, iff_false]
    rintro ⟨hs, hp⟩
    by_cases he : pyStrip data = ""
    · rw [he, hasKeyword_empty] at hs
      simp at hs
    · rw [if_neg he] at hp
      simp at hp

/-- Claim C2: a non-Protocol line containing one of the keywords `error`,
`result`, `response` (case-insensitively) is both printed (when non-empty
after trimming) and sent to the WebSocket; a non-Protocol line with no
keyword is printed only and never sent. -/
theorem diagnostic_route (data : String)
    (h : is_mcp_protocol (pyStrip data) = false) :
    (hasKeyword (pyStrip data) = true → (handleLine data).sent = [data]) ∧
    (hasKeyword (pyStrip data) = false → (handleLine data).sent = []) ∧
    (handleLine data).printed =
      (if pyStrip data = "" then [] else [pyStrip data]) := by
  unfold handleLine
  simp only [h, Bool.false_eq_true, if_false]
  refine ⟨fun hk => by simp [hk], fun hk => by simp [hk], by trivial⟩

theorem diagnostic_route_check :
    (handleLine "INFO Connected successfully\n").sent = [] ∧
    (handleLine "INFO Connected successfully\n").printed =
      ["INFO Connected successfully"] := by
  have h := diagnostic_route "INFO Connected successfully\n" (by decide)
  refine ⟨h.2.1 (by decide), ?_⟩
  rw [h.2.2]
  decide

/-- Claim C10: at most one `websocket.send` happens per line (the Protocol
branch and the keyword branch are the two arms of one if/else), and a
Protocol line is sent exactly once even when it also contains keywords. -/
theorem single_send_per_line (data : String) :
    (handleLine data).sent.length ≤ 1 ∧
    (is_mcp_protocol (pyStrip data) = true → (handleLine data).sent = [data]) := by
  unfold handleLine
  by_cases h : is_mcp_protocol (pyStrip data) = true
  · simp [h]
  · rw [Bool.not_eq_true] at h
    simp only [h, Bool.false_eq_true, if_false]
    refine ⟨?_, by simp⟩
    by_cases hk : hasKeyword (pyStrip data) = true
    · simp [hk]
    · rw [Bool.not_eq_true] at hk
      simp [hk]

theorem single_send_per_line_check :
    (handleLine "\x7b\"jsonrpc\": \"2.0\", \"error\": \x7b\x7d\x7d\n").sent =
      ["\x7b\"jsonrpc\": \"2.0\", \"error\": \x7b\x7d\x7d\n"] :=
  (single_send_per_line _).2 (by decide)

/-! ## The two pumps and the `asyncio.gather` bridge (`connect_to_server`)

`pipe_websocket_to_process` (lines 138-156) is a `while True` loop around
`websocket.recv()`; every iteration either writes `message + '\n'` to the
child's stdin and flushes, or raises.  The loop has no `break`, so the pump
can only terminate by raising an exception — it has no normal-completion
path.  `pipe_process_to_websocket_and_terminal` (lines 158-192) loops on
`process.stdout.readline`; an empty read (EOF) breaks the loop normally,
any exception is re-raised.

`connect_to_server` runs `asyncio.gather(pumpA, pumpB)` (lines 119-122).
`gather` propagates the first exception raised by either task as soon as it
is raised (without cancelling the sibling task), and otherwise completes
only when every task has completed.  Only when `gather` raises does control
reach the `finally` clause (terminate the child) and leave the
`async with websockets.connect` block (close the WebSocket), re-raising the
exception to `connect_with_retry`.
-/

/-- A WebSocket frame delivered by `websocket.recv()`: a text frame or a
binary frame (carried here as its UTF-8 decoding, which is what line 147
produces from the raw bytes). -/
inductive WsMsg where
  | text (s : String)
  | binary (decoded : String)
  deriving DecidableEq, Repr

/-- The string the inbound pump works with after the `isinstance` check of
lines 146-147. -/
def msgText : WsMsg → String
  | .text s => s
  | .binary s => s

/-- One event observed by the inbound pump: a message received and written
successfully, a message received whose stdin write raises (e.g. the child
died and the pipe broke), or a `recv` that raises (socket closed). -/
inductive InEvent where
  | msg (m : WsMsg)
  | msgWriteFail (m : WsMsg)
  | recvFail
  deriving DecidableEq, Repr

/-- Status of the inbound pump after consuming a finite prefix of events.
There is no normal-completion constructor because the `while True` loop of
`pipe_websocket_to_process` has no `break`: the pump is either still
blocked in `recv` or has raised. -/
inductive PumpAStatus where
  | running
  | errored
  deriving DecidableEq, Repr

/-- `pipe_websocket_to_process` over a finite list of events: the list of
strings written (and flushed) to the child's stdin, and the pump status. -/
def pumpA_run : List InEvent → List String × PumpAStatus
  | [] => ([], .running)
  | .msg m :: rest =>
      let r := pumpA_run rest
      ((msgText m ++ "\n") :: r.1, r.2)
  | .msgWriteFail _ :: _ => ([], .errored)
  | .recvFail :: _ => ([], .errored)

/-- One result of `process.stdout.readline` as seen by the outbound pump:
a (non-empty) line, an empty read (EOF, line 167), or a raising read. -/
inductive ReadEvent where
  | line (data : String)
  | eof
  | readError
  deriving DecidableEq, Repr

/-- Status of the outbound pump: still reading, finished normally via the
EOF `break`, or terminated by an exception. -/
inductive PumpBStatus where
  | running
  | finished
  | errored
  deriving DecidableEq, Repr

/-- `pipe_process_to_websocket_and_terminal` over a finite list of read
events: the accumulated send/print actions and the pump status. -/
def pumpB_run : List ReadEvent → LineActions × PumpBStatus
  | [] => (⟨[], []⟩, .running)
  | .eof :: _ => (⟨[], []⟩, .finished)
  | .readError :: _ => (⟨[], []⟩, .errored)
  | .line data :: rest =>
      let a := handleLine data
      let r := pumpB_run rest
      (⟨a.sent ++ r.1.sent, a.printed ++ r.1.printed⟩, r.2)

/-- What `connect_to_server` does once the gathered pair completes: the
`finally` clause terminates the child, leaving the `async with` block closes
the WebSocket, and the exception is re-raised to the supervisor. -/
structure SessionEnd where
  terminatedChild : Bool
  closedWebSocket : Bool
  raisedToSupervisor : Bool
  deriving DecidableEq, Repr

/-- `asyncio.gather` completion: it propagates as soon as either task has
raised, and otherwise completes only when all tasks are done — which never
happens here while the inbound pump is still `running`. -/
def gatherDone (a : PumpAStatus) (b : PumpBStatus) : Bool :=
  match a, b with
  | .errored, _ => true
  | _, .errored => true
  | .running, _ => false

/-- The observable end of one session of `connect_to_server`, given the two
pump statuses: `none` while the gathered pair has not completed (no
teardown has run), otherwise the teardown of lines 123-136. -/
def bridgeOutcome (a : PumpAStatus) (b : PumpBStatus) : Option SessionEnd :=
  if gatherDone a b then
    some { terminatedChild := true, closedWebSocket := true,
           raisedToSupervisor := true }
  else
    none

/-! ## Retry loop and backoff state (`connect_with_retry`, lines 54-89) -/

/-- Line 55 of `mcp_pipe.py`. -/
def INITIAL_BACKOFF : Nat := 1

/-- Line 56 of `mcp_pipe.py`. -/
def MAX_BACKOFF : Nat := 600

/-- The two module-level globals `reconnect_attempt` and `backoff`
(lines 57-58). -/
structure RetryState where
  reconnect_attempt : Nat
  backoff : Nat
  deriving DecidableEq, Repr

/-- How one call to `connect_to_server` ends.  Every path out of
`connect_to_server` raises: a handshake failure raises from
`websockets.connect`, a spawn failure raises from `subprocess.Popen`, and a
session that got as far as running the pumps ends with the exception
propagated out of `asyncio.gather`. -/
inductive ConnOutcome where
  | handshakeFail
  | spawnFail
  | sessionError
  deriving DecidableEq, Repr

/-- The effect of the body of `connect_to_server` on the globals before its
exception propagates: lines 88-89 reset them as soon as the WebSocket
handshake succeeds — before the child process is spawned — so every outcome
other than a handshake failure leaves the globals reset. -/
def connect_to_server_state (s : RetryState) (o : ConnOutcome) : RetryState :=
  match o with
  | .handshakeFail => s
  | .spawnFail => { reconnect_attempt := 0, backoff := INITIAL_BACKOFF }
  | .sessionError => { reconnect_attempt := 0, backoff := INITIAL_BACKOFF }

/-- One iteration of the `while True` loop of `connect_with_retry`
(lines 63-77): the optional pre-jitter sleep performed at the top of the
iteration (`backoff` seconds, only when `reconnect_attempt > 0`), then the
call to `connect_to_server`, whose exception is caught by lines 73-77 which
increment `reconnect_attempt` and double `backoff` up to `MAX_BACKOFF`. -/
def retryIter (s : RetryState) (o : ConnOutcome) : Option Nat × RetryState :=
  let sleep := if s.reconnect_attempt > 0 then some s.backoff else none
  let s1 := connect_to_server_state s o
  (sleep,
    { reconnect_attempt := s1.reconnect_attempt + 1,
      backoff := min (s1.backoff * 2) MAX_BACKOFF })

/-- Iterate `retryIter` over a list of connection outcomes, collecting the
pre-jitter sleep durations in order. -/
def retryTrace : RetryState → List ConnOutcome → List Nat × RetryState
  | s, [] => ([], s)
  | s, o :: os =>
      let p := retryIter s o
      let r := retryTrace p.2 os
      (match p.1 with
       | some w => w :: r.1
       | none => r.1,
       r.2)

/-- Claim C3 (counterexample): starting from the initial state, three
consecutive handshake failures produce pre-jitter sleeps of 2s and 4s — not
1s, 2s, 4s as claimed.  The code doubles `backoff` on line 77 before the
sleep of line 68 ever runs, so the initial 1-second delay is never slept;
moreover only two sleeps separate three attempts.  `reconnect_attempt` does
reach 3. -/
theorem backoff_sleeps_cex :
    (retryTrace ⟨0, INITIAL_BACKOFF⟩
      [ConnOutcome.handshakeFail, ConnOutcome.handshakeFail,
        ConnOutcome.handshakeFail]).1 = [2, 4] ∧
    (retryTrace ⟨0, INITIAL_BACKOFF⟩
      [ConnOutcome.handshakeFail, ConnOutcome.handshakeFail,
        ConnOutcome.handshakeFail]).2.reconnect_attempt = 3 ∧
    ([2, 4] : List Nat) ≠ [1, 2, 4] := by decide

/-- Claim C3 (amended): with initial delay 1s, three consecutive handshake
failures give pre-jitter sleeps of 2s and 4s between the attempts (the delay
is doubled on failure before the sleep), `reconnect_attempt` reaches 3, and
the sleep that would precede a fourth attempt is 8s. -/
theorem backoff_sleeps_amended :
    retryTrace ⟨0, INITIAL_BACKOFF⟩
      [ConnOutcome.handshakeFail, ConnOutcome.handshakeFail,
        ConnOutcome.handshakeFail] = ([2, 4], ⟨3, 8⟩) ∧
    ∀ o : ConnOutcome, (retryIter ⟨3, 8⟩ o).1 = some 8 :=
  ⟨by decide, fun _ => rfl⟩

/-- Claim C4 (counterexample): a spawn failure is not a Connected transition
under the claim (the child never spawned), yet because lines 88-89 reset the
globals as soon as the handshake succeeds — before `subprocess.Popen` runs —
the state ⟨attempts 5, backoff 32⟩ drops to ⟨1, 2⟩ across this failed
attempt: `current_delay` decreases from 32 to 2 with no intervening
success. -/
theorem backoff_reset_cex :
    (retryIter ⟨5, 32⟩ ConnOutcome.spawnFail).2 = ⟨1, 2⟩ ∧
    (2 : Nat) < 32 := by decide

/-- Claim C4 (amended): across consecutive handshake failures the delay is
monotonically non-decreasing and capped at `MAX_BACKOFF` while the attempt
counter increments; the reset of both globals happens exactly when the
WebSocket handshake succeeds — before and regardless of whether the child
process spawn succeeds — so spawn failures and session errors also reset
them. -/
theorem backoff_monotone_reset_amended (s : RetryState) :
    (s.backoff ≤ MAX_BACKOFF →
      s.backoff ≤ ((retryIter s ConnOutcome.handshakeFail).2).backoff ∧
      ((retryIter s ConnOutcome.handshakeFail).2).backoff ≤ MAX_BACKOFF) ∧
    ((retryIter s ConnOutcome.handshakeFail).2).reconnect_attempt =
      s.reconnect_attempt + 1 ∧
    connect_to_server_state s ConnOutcome.spawnFail =
      ⟨0, INITIAL_BACKOFF⟩ ∧
    connect_to_server_state s ConnOutcome.sessionError =
      ⟨0, INITIAL_BACKOFF⟩ := by
  refine ⟨fun h => ⟨?_, ?_⟩, rfl, rfl, rfl⟩
  · show s.backoff ≤ min (s.backoff * 2) MAX_BACKOFF
    exact le_min (by omega) h
  · exact min_le_right _ _

theorem backoff_monotone_reset_check :
    (4 : Nat) ≤ MAX_BACKOFF ∧
    (4 : Nat) ≤ ((retryIter ⟨2, 4⟩ ConnOutcome.handshakeFail).2).backoff :=
  ⟨by decide, ((backoff_monotone_reset_amended ⟨2, 4⟩).1 (by decide)).1⟩

/-- Claim C5 (counterexample): a clean child exit (EOF on the child's
output) finishes the outbound pump normally, but with the inbound pump
still blocked in `recv` (no inbound events) the gathered pair has not
completed: no teardown has run and the supervisor has not entered backoff —
the session has not ended. -/
theorem clean_exit_cex :
    (pumpB_run [ReadEvent.eof]).2 = PumpBStatus.finished ∧
    (pumpA_run []).2 = PumpAStatus.running ∧
    bridgeOutcome (pumpA_run []).2 (pumpB_run [ReadEvent.eof]).2 = none := by
  decide

/-- Claim C5 (amended): a clean child exit ends the outbound pump normally,
and the session ends once the inbound pump subsequently raises (e.g. the
next WebSocket message's write to the dead child's stdin fails, or the
socket closes); the teardown then runs and the error reaches the
supervisor, which (the handshake of this session having reset the globals)
sets `reconnect_attempt` to 1 and `backoff` to 2 and therefore sleeps that
backoff delay at the top of the next iteration, before the next connection
attempt. -/
theorem clean_exit_amended (s : RetryState) (o : ConnOutcome) :
    bridgeOutcome PumpAStatus.errored PumpBStatus.finished =
      some ⟨true, true, true⟩ ∧
    (retryIter s ConnOutcome.sessionError).2 = ⟨1, 2⟩ ∧
    (retryIter (retryIter s ConnOutcome.sessionError).2 o).1 =
      some (retryIter s ConnOutcome.sessionError).2.backoff :=
  ⟨rfl, rfl, rfl⟩

/-- Claim C6 (counterexample): the outbound pump exiting by success (a line
then EOF) does not make the Bridge stop anything — `asyncio.gather` waits
for the still-running inbound pump, so no child termination, no WebSocket
close and no return to the supervisor has happened. -/
theorem pump_exit_teardown_cex :
    (pumpB_run [ReadEvent.line "done\n", ReadEvent.eof]).2 =
      PumpBStatus.finished ∧
    bridgeOutcome PumpAStatus.running
      (pumpB_run [ReadEvent.line "done\n", ReadEvent.eof]).2 = none := by
  decide

/-- Claim C6 (amended): when either pump raises, the gathered pair completes
and the session ends: the child process is terminated, the WebSocket is
closed, and the error is re-raised to the Reconnection Supervisor.  The
sibling pump is not cancelled by the Bridge (it is left to fail on its own
once the child is dead and the socket closed), and a normal EOF exit of the
outbound pump alone does not end the session. -/
theorem pump_exit_teardown_amended :
    (∀ b : PumpBStatus,
      bridgeOutcome PumpAStatus.errored b = some ⟨true, true, true⟩) ∧
    (∀ a : PumpAStatus,
      bridgeOutcome a PumpBStatus.errored = some ⟨true, true, true⟩) :=
  ⟨fun b => by cases b <;> rfl, fun a => by cases a <;> rfl⟩

/-- Claim C8 (counterexample): `readline` delivers each child line including
its trailing newline, and the Protocol branch sends `data` verbatim — so
the frame put on the wire for the spec's own example line contains a
newline, contradicting "newline-free on the wire". -/
theorem frame_newline_cex :
    (handleLine "\x7b\"jsonrpc\":\"2.0\",\"result\":\x7b\"ok\":true\x7d\x7d\n").sent =
      ["\x7b\"jsonrpc\":\"2.0\",\"result\":\x7b\"ok\":true\x7d\x7d\n"] ∧
    hasNewline "\x7b\"jsonrpc\":\"2.0\",\"result\":\x7b\"ok\":true\x7d\x7d\n" = true := by
  decide

/-- Claim C8 (amended): every inbound frame (decoded from UTF-8 if binary)
is written to the child's stdin as the frame text followed by exactly one
appended newline and flushed, and every Protocol line read from the child is
sent to the WebSocket exactly as read — unmodified, hence including the
trailing newline `readline` delivers, so outbound frames are not
newline-free. -/
theorem frame_framing_amended :
    (∀ ms : List WsMsg,
      (pumpA_run (ms.map InEvent.msg)).1 =
        ms.map (fun m => msgText m ++ "\n")) ∧
    (∀ data : String, is_mcp_protocol (pyStrip data) = true →
      (handleLine data).sent = [data]) := by
  constructor
  · intro ms
    induction ms with
    | nil => rfl
    | cons m rest ih => simp [pumpA_run, ih]
  · intro data h
    simp [handleLine, h]

theorem frame_framing_check :
    (pumpA_run [InEvent.msg (WsMsg.text "ping")]).1 = ["ping\n"] ∧
    (handleLine "\x7b\"method\":\"tools/list\"\x7d\n").sent =
      ["\x7b\"method\":\"tools/list\"\x7d\n"] := by
  refine ⟨?_, frame_framing_amended.2 _ (by decide)⟩
  have h := frame_framing_amended.1 [WsMsg.text "ping"]
  simpa using h

/-! ## Startup checks (`__main__` block, lines 199-216) -/

/-- Line 205 of `mcp_pipe.py`. -/
def usageMsg : String :=
  "Usage: python mcp_pipe.py <plugin_dir> <mcp_script> or python mcp_pipe.py <mcp_script>"

/-- Line 211 of `mcp_pipe.py`. -/
def endpointMsg : String :=
  "Please set the `MCP_ENDPOINT` environment variable"

/-- The externally observable actions of the `__main__` block before and
including handing control to `connect_with_retry`. -/
inductive StartupAction where
  | logError (msg : String)
  | exitFailure
  | connectLoop (uri : String)
  deriving DecidableEq, Repr

/-- The `__main__` block (lines 204-216): reject fewer than two `argv`
entries, then read `MCP_ENDPOINT` (`none` models an unset variable; the
Python test `if not endpoint_url` also fires on an empty string), and only
then start the retry loop on the endpoint. -/
def mainStartup (argv : List String) (endpoint : Option String) :
    List StartupAction :=
  if argv.length < 2 then
    [.logError usageMsg, .exitFailure]
  else
    match endpoint with
    | none => [.logError endpointMsg, .exitFailure]
    | some url =>
        if url = "" then [.logError endpointMsg, .exitFailure]
        else [.connectLoop url]

/-- Claim C7: with a well-formed command line but `MCP_ENDPOINT` unset, the
program logs a descriptive message and exits with failure status, and no
connection attempt is ever made — the check runs once, before the retry
loop would start. -/
theorem missing_endpoint_exits (a0 a1 : String) (rest : List String) :
    mainStartup (a0 :: a1 :: rest) none =
      [StartupAction.logError endpointMsg, StartupAction.exitFailure] ∧
    ∀ uri : String,
      StartupAction.connectLoop uri ∉ mainStartup (a0 :: a1 :: rest) none := by
  have hlen : ¬((a0 :: a1 :: rest).length < 2) := by
    simp only [List.length_cons]
    omega
  constructor
  · unfold mainStartup
    rw [if_neg hlen]
  · intro uri
    unfold mainStartup
    rw [if_neg hlen]
    simp

/-! ## Child termination (`finally` clause, lines 129-136)

```
process.terminate()
process.wait(timeout=5)
except subprocess.TimeoutExpired:
    process.kill()
```

`subprocess.Popen.terminate` polls the process first and only signals it
when it has not already exited, so it is a no-op (raising nothing) on a
dead process; `wait(timeout=5)` returns immediately for a dead process and
raises `TimeoutExpired` exactly when the process is still alive after the
timeout; `kill` is reached only through that handler.
-/

/-- The `timeout=5` of line 134. -/
def GRACE_TIMEOUT : Nat := 5

/-- Whether a child that receives the graceful stop signal exits within the
grace period: `exitTime` is the number of seconds after the signal at which
it exits, `none` meaning it ignores the signal. -/
def exitsWithinGrace (exitTime : Option Nat) : Bool :=
  match exitTime with
  | some t => decide (t ≤ GRACE_TIMEOUT)
  | none => false

/-- The observable effects of running the `finally` clause once. -/
structure TermOutcome where
  sentTermSignal : Bool
  sentKillSignal : Bool
  raisedError : Bool
  aliveAfter : Bool
  deriving DecidableEq, Repr

/-- Lines 131-136 of `mcp_pipe.py` applied to a child that is currently
`alive` (or already exited) and would exit `exitTime` seconds after a
graceful stop signal. -/
def terminateChild (alive : Bool) (exitTime : Option Nat) : TermOutcome :=
  if alive then
    if exitsWithinGrace exitTime then
      { sentTermSignal := true, sentKillSignal := false,
        raisedError := false, aliveAfter := false }
    else
      { sentTermSignal := true, sentKillSignal := true,
        raisedError := false, aliveAfter := false }
  else
    { sentTermSignal := false, sentKillSignal := false,
      raisedError := false, aliveAfter := false }

/-- Claim C9: termination sends the graceful signal first and force-kills
exactly when the child is alive and does not exit within the 5-second
grace period; the sequence never raises, always leaves the child dead, and
run a second time (the child now being dead) it signals nothing and raises
nothing — it is idempotent and safe after the process has exited. -/
theorem terminate_child_safe (alive : Bool) (exitTime : Option Nat) :
    (terminateChild alive exitTime).sentKillSignal =
      (alive && !exitsWithinGrace exitTime) ∧
    (terminateChild alive exitTime).raisedError = false ∧
    (terminateChild alive exitTime).aliveAfter = false ∧
    (terminateChild false exitTime).sentTermSignal = false ∧
    (terminateChild false exitTime).sentKillSignal = false ∧
    (terminateChild false exitTime).raisedError = false := by
  cases alive <;> cases hg : exitsWithinGrace exitTime <;>
    simp [terminateChild, hg]
